import Mathlib

/-!
Shallow embedding of the two mock-log emitters of the alert-engine repository:
`deployments/mock/mock_log_generator.py` (stdout sink) and
`local_e2e/setup/mock_log_forwarder.py` (broker sink).

Modelling conventions, used throughout:

* Python dicts become association lists `List (String × JValue)` in insertion
  order; `d[k] = v` becomes `dictSet` (replace in place if the key exists,
  append otherwise), and `k in d` / `d.get(k, def)` become `List.lookup`-based
  operations.
* Every call to `random.choice(xs)` is modelled by an arbitrary index `i : Nat`
  and the element `xs.getD (i % xs.length) default`, and `random.randint(a, b)`
  by `a + n % (b - a + 1)` for arbitrary `n : Nat`; quantifying theorems over
  those `Nat`s covers every possible draw.
* Timestamps (`datetime.utcnow()...`) and random hex strings
  (`random.randbytes(...).hex()`) are opaque `String` parameters of the draw
  records: their contents never influence the control flow being verified.
* `json.dumps` / JSON decoding are modelled structurally: a value serialised
  and later decoded is represented by the `JValue` itself (serialisation of a
  `JValue` is injective and decoding is its inverse), so a field that Python
  stores as a JSON-encoded string is stored here as the structural `JValue`.
* Python `str(int)` rendering is modelled by `natStr` (decimal digits).
-/

/-- Structural model of a JSON value (the shapes used by both scripts). -/
inductive JValue where
  | str : String → JValue
  | num : Int → JValue
  | obj : List (String × JValue) → JValue
  | arr : List JValue → JValue

/-- A Python dict with string keys, in insertion order. -/
abbrev Rec := List (String × JValue)

/-- Python `d[k] = v`: replace the binding in place if present, else append. -/
def dictSet (r : Rec) (k : String) (v : JValue) : Rec :=
  if r.any (fun p => p.fst == k) then
    r.map (fun p => if p.fst == k then (k, v) else p)
  else r ++ [(k, v)]

/-- The string stored under `k`, or `""` (used only where the scripts
guarantee the key holds a string). -/
def recField (r : Rec) (k : String) : String :=
  match List.lookup k r with
  | some (JValue.str s) => s
  | _ => ""

def recMessage (r : Rec) : String := recField r "message"
def recLevel (r : Rec) : String := recField r "level"
def recService (r : Rec) : String := recField r "service"
def recTimestamp (r : Rec) : String := recField r "timestamp"

/-- The value stored under `"raw"`, if any. -/
def rawOf (r : Rec) : Option JValue := List.lookup "raw" r

/-- Decimal digit character, `0 ≤ n ≤ 9`. -/
def digitChar (n : Nat) : Char := Char.ofNat (48 + n)

/-- Decimal digits of `n`, most significant first: model of Python `str(int)`
for nonnegative integers. -/
def natDigits (n : Nat) : List Char :=
  if n < 10 then [digitChar n]
  else natDigits (n / 10) ++ [digitChar (n % 10)]
decreasing_by exact Nat.div_lt_self (by omega) (by omega)

/-- Model of Python `str(n)` for a natural number interpolated by an f-string. -/
def natStr (n : Nat) : String := ⟨natDigits n⟩

/-- Model of Python `s.lower()` for the ASCII strings used here. -/
def strLower (s : String) : String := ⟨s.data.map Char.toLower⟩

/-- `listStartsWith s p`: `p` is a prefix of the character list `s`. -/
def listStartsWith : List Char → List Char → Bool
  | _, [] => true
  | [], _ :: _ => false
  | a :: as, b :: bs => a == b && listStartsWith as bs

/-- `listHasSub s sub`: `sub` occurs contiguously inside `s`. -/
def listHasSub : List Char → List Char → Bool
  | [], sub => sub.isEmpty
  | a :: as, sub => listStartsWith (a :: as) sub || listHasSub as sub

/-- Model of Python `sub in s` (literal substring test). -/
def strHasSub (s sub : String) : Bool := listHasSub s.data sub.data

/-- An alert pattern's `conditions` dict. Field order: `log_level`, `service`,
`namespaceKey` (the Python key `"namespace"`; renamed because `namespace` is a
Lean keyword), `keywords`, `threshold`, `time_window`. Absent dict keys are
`none`. -/
structure PatternConditions where
  log_level : Option String := none
  service : Option String := none
  namespaceKey : Option String := none
  keywords : Option (List String) := none
  threshold : Option Nat := none
  time_window : Option Nat := none
deriving DecidableEq

/-- One entry of the pattern catalog: `conditions`, `keywords`, `services`. -/
structure Pattern where
  conditions : PatternConditions
  keywords : List String
  services : List String
deriving DecidableEq

/-- `["ERROR", "WARN", "INFO", "FATAL"]`, the pool used when a pattern has no
`log_level` condition (identical in both scripts). -/
def fourLevels : List String := ["ERROR", "WARN", "INFO", "FATAL"]

/-- The level both scripts pick before any test-mode override: the pattern's
`log_level` condition if defined, else a random member of `fourLevels`. -/
def defaultLevel (cfg : Pattern) (levelIdx : Nat) : String :=
  match cfg.conditions.log_level with
  | some l => l
  | none => fourLevels.getD (levelIdx % fourLevels.length) ""

namespace MockLogGenerator

/-- `self.services` of `mock_log_generator.py`. -/
def services : List String :=
  ["payment-service", "user-service", "database-service",
   "authentication-api", "inventory-service", "notification-service",
   "order-service", "shipping-service", "billing-service", "audit-service",
   "checkout-service", "email-service", "redis-cache", "message-queue"]

/-- `self.patterns` of `mock_log_generator.py` (19 patterns), in dict order. -/
def patterns : List (String × Pattern) :=
  [("high_error_rate",
    ⟨{ log_level := some "ERROR", threshold := some 10, time_window := some 300 },
     ["error", "failed", "exception", "timeout"],
     ["payment-service", "user-service", "database-service"]⟩),
   ("payment_failures",
    ⟨{ service := some "payment-service", keywords := some ["payment failed"], threshold := some 5 },
     ["payment failed", "transaction declined", "payment timeout"],
     ["payment-service"]⟩),
   ("database_errors",
    ⟨{ log_level := some "ERROR", service := some "database-service", threshold := some 3 },
     ["connection refused", "deadlock detected", "query timeout"],
     ["database-service"]⟩),
   ("authentication_failures",
    ⟨{ service := some "authentication-api", keywords := some ["authentication failed"], threshold := some 10 },
     ["authentication failed", "invalid credentials", "token expired"],
     ["authentication-api"]⟩),
   ("service_timeouts",
    ⟨{ keywords := some ["timeout"], threshold := some 5, time_window := some 300 },
     ["timeout", "connection timeout", "request timeout", "gateway timeout"],
     ["payment-service", "user-service", "inventory-service"]⟩),
   ("critical_namespace_alerts",
    ⟨{ log_level := some "CRITICAL", namespaceKey := some "production", threshold := some 1 },
     ["critical", "fatal", "emergency", "disaster"],
     ["order-service", "payment-service", "user-service"]⟩),
   ("inventory_warnings",
    ⟨{ log_level := some "WARN", service := some "inventory-service", threshold := some 15 },
     ["low stock", "inventory warning", "stock alert", "out of stock"],
     ["inventory-service"]⟩),
   ("notification_failures",
    ⟨{ service := some "notification-service", keywords := some ["notification failed"], threshold := some 8 },
     ["notification failed", "email failed", "sms failed", "push notification failed"],
     ["notification-service"]⟩),
   ("high_warn_rate",
    ⟨{ log_level := some "WARN", threshold := some 25, time_window := some 600 },
     ["warning", "deprecated", "slow response", "performance"],
     ["order-service", "shipping-service", "billing-service"]⟩),
   ("audit_issues",
    ⟨{ service := some "audit-service", keywords := some ["audit"], threshold := some 5 },
     ["audit trail", "security audit", "access violation", "unauthorized access"],
     ["audit-service"]⟩),
   ("checkout_payment_failed",
    ⟨{ service := some "checkout-service", keywords := some ["payment failed"], threshold := some 1 },
     ["payment failed", "payment declined", "checkout failed"],
     ["checkout-service"]⟩),
   ("inventory_stock_unavailable",
    ⟨{ service := some "inventory-service", keywords := some ["stock unavailable"], threshold := some 1 },
     ["stock unavailable", "out of stock", "inventory depleted"],
     ["inventory-service"]⟩),
   ("email_smtp_failed",
    ⟨{ service := some "email-service", keywords := some ["SMTP connection failed"], threshold := some 1 },
     ["SMTP connection failed", "email server down", "mail delivery failed"],
     ["email-service"]⟩),
   ("redis_connection_refused",
    ⟨{ service := some "redis-cache", keywords := some ["connection refused"], threshold := some 1 },
     ["connection refused", "redis unavailable", "cache connection failed"],
     ["redis-cache"]⟩),
   ("message_queue_full",
    ⟨{ service := some "message-queue", keywords := some ["queue full"], threshold := some 1 },
     ["queue full", "message queue overflow", "queue capacity exceeded"],
     ["message-queue"]⟩),
   ("timeout_any_service",
    ⟨{ keywords := some ["timeout"], threshold := some 1 },
     ["timeout", "request timeout", "connection timeout"],
     ["payment-service", "user-service", "inventory-service", "order-service"]⟩),
   ("slow_query",
    ⟨{ keywords := some ["slow query"], threshold := some 1 },
     ["slow query", "query timeout", "database performance"],
     ["database-service", "order-service", "user-service"]⟩),
   ("deadlock_detected",
    ⟨{ keywords := some ["deadlock detected"], threshold := some 1 },
     ["deadlock detected", "database deadlock", "transaction deadlock"],
     ["database-service"]⟩),
   ("cross_service_errors",
    ⟨{ keywords := some ["service unavailable"], threshold := some 3, time_window := some 180 },
     ["service unavailable", "dependency failed", "circuit breaker", "upstream error"],
     ["payment-service", "user-service", "inventory-service", "order-service"]⟩)]

/-- Random draws consumed by `generate_base_log`. `ts1`/`ts2` are the two
`datetime.utcnow()` strings, `hexStr` the sliced `randbytes(32).hex()[:12]`,
`ownerHex` the `randbytes(4).hex()`; the `Nat` fields feed the
`randint`/`choice` calls as described in the module header. -/
structure BaseDraw where
  ts1 : String
  ts2 : String
  nsIdx : Nat
  podNum : Nat
  podSufIdx : Nat
  hexStr : String
  vMajor : Nat
  vMinor : Nat
  vPatch : Nat
  revision : Nat
  ipA : Nat
  ipB : Nat
  ipC : Nat
  ownerHex : String

/-- `generate_base_log` of `mock_log_generator.py`. `selfNamespace` and
`nodeName` model `self.namespace` (env `POD_NAMESPACE`, default `mock-logs`)
and `self.node_name` (env `NODE_NAME`, default `unknown-node`). -/
def generate_base_log (selfNamespace nodeName service level : String)
    (d : BaseDraw) : Rec :=
  let ns := [selfNamespace, "production", "staging", "development"].getD (d.nsIdx % 4) ""
  let pod_id := service ++ "-" ++ natStr (10000 + d.podNum % 90000) ++ "-"
    ++ ["abc", "def", "xyz"].getD (d.podSufIdx % 3) ""
  let container_id := "cri-o://" ++ d.hexStr
  [("timestamp", JValue.str d.ts1),
   ("@timestamp", JValue.str d.ts2),
   ("level", JValue.str level),
   ("service", JValue.str service),
   ("namespace", JValue.str ns),
   ("host", JValue.str nodeName),
   ("hostname", JValue.str nodeName),
   ("log_source", JValue.str "application"),
   ("log_type", JValue.str "structured"),
   ("kubernetes", JValue.obj
     [("namespace", JValue.str ns),
      ("namespace_name", JValue.str ns),
      ("pod", JValue.str pod_id),
      ("pod_name", JValue.str pod_id),
      ("container", JValue.str service),
      ("container_name", JValue.str service),
      ("labels", JValue.obj
        [("app", JValue.str service),
         ("version", JValue.str ("v" ++ natStr (1 + d.vMajor % 3) ++ "."
           ++ natStr (d.vMinor % 10) ++ "." ++ natStr (d.vPatch % 10))),
         ("environment", JValue.str ns),
         ("component", JValue.str (if strHasSub service "-"
           then (service.splitOn "-").getD 0 "" else service)),
         ("generated-by", JValue.str "mock-log-generator")]),
      ("annotations", JValue.obj
        [("deployment.kubernetes.io/revision", JValue.str (natStr (1 + d.revision % 10))),
         ("kubectl.kubernetes.io/last-applied-configuration", JValue.str "\x7b...\x7d"),
         ("openshift.io/generated-by", JValue.str "OpenShiftNewApp")]),
      ("container_id", JValue.str container_id),
      ("pod_ip", JValue.str ("10." ++ natStr (128 + d.ipA % 128) ++ "."
        ++ natStr (1 + d.ipB % 254) ++ "." ++ natStr (1 + d.ipC % 254))),
      ("pod_owner", JValue.str ("ReplicaSet/" ++ service ++ "-" ++ d.ownerHex))])]

/-- The `e2e_overrides` dict consulted by `generate_pattern_log` when
`self.mode == "test"`; each entry pins `(level, service)`. -/
def e2eOverrides (name : String) : Option (String × String) :=
  List.lookup name
    [("high_error_rate", ("ERROR", "payment-service")),
     ("high_warn_rate", ("WARN", "user-service")),
     ("database_errors", ("FATAL", "database-service")),
     ("authentication_failures", ("ERROR", "authentication-api"))]

/-- The `(service, level)` selection of `generate_pattern_log`: random choice
from the pattern's lists (or its `log_level` condition), then the test-mode
e2e override if one exists for this pattern name. -/
def patternServiceLevel (mode name : String) (cfg : Pattern)
    (serviceIdx levelIdx : Nat) : String × String :=
  let service := cfg.services.getD (serviceIdx % cfg.services.length) ""
  let level := match cfg.conditions.log_level with
    | some l => l
    | none => fourLevels.getD (levelIdx % fourLevels.length) ""
  if mode == "test" then
    match e2eOverrides name with
    | some (lv, sv) => (sv, lv)
    | none => (service, level)
  else (service, level)

/-- The test-mode `messages` dict of `generate_pattern_log` (e2e-specific
templates). Each Python entry draws its own `randint`; only the selected
entry's draw is observable, and `n` models it. -/
def testMessages (kw : String) (n : Nat) : List (String × String) :=
  [("high_error_rate", "Payment service error: " ++ kw
     ++ " - transaction processing failed for user " ++ natStr (1000 + n % 9000)),
   ("high_warn_rate", "User service warning: " ++ kw ++ " - memory usage approaching limits"),
   ("database_errors", "Database fatal error: " ++ kw ++ " - connection lost to primary database"),
   ("authentication_failures", "Authentication API error: " ++ kw
     ++ " - invalid token for user " ++ natStr (1000 + n % 9000)),
   ("checkout_payment_failed", "Checkout process: " ++ kw
     ++ " for order #" ++ natStr (10000 + n % 90000)),
   ("inventory_stock_unavailable", "Inventory alert: " ++ kw
     ++ " for item SKU-" ++ natStr (1000 + n % 9000)),
   ("email_smtp_failed", "Email service: " ++ kw ++ " while connecting to mail server"),
   ("redis_connection_refused", "Redis cache: " ++ kw ++ " - unable to establish connection"),
   ("message_queue_full", "Message queue: " ++ kw ++ " - broker capacity exceeded"),
   ("timeout_any_service", "Service operation: " ++ kw ++ " after 30 seconds waiting for response"),
   ("slow_query", "Database query: " ++ kw ++ " detected - execution time 2.5 seconds"),
   ("deadlock_detected", "Database transaction: " ++ kw ++ " between user operations")]

/-- The continuous-mode (production-style) `messages` dict of
`generate_pattern_log`. -/
def prodMessages (service kw : String) (n : Nat) : List (String × String) :=
  [("high_error_rate", "Service " ++ service ++ " encountered an error: " ++ kw
     ++ " during request processing"),
   ("payment_failures", "Payment processing failed: " ++ kw
     ++ " for transaction ID " ++ natStr (10000 + n % 90000)),
   ("database_errors", "Database operation failed: " ++ kw ++ " on table users_table"),
   ("authentication_failures", "User authentication failed: " ++ kw
     ++ " for user ID " ++ natStr (1000 + n % 9000)),
   ("service_timeouts", "Service request timeout: " ++ kw
     ++ " after 30 seconds waiting for response"),
   ("critical_namespace_alerts", "Critical system failure: " ++ kw
     ++ " - immediate attention required"),
   ("inventory_warnings", "Inventory alert: " ++ kw
     ++ " for product SKU-" ++ natStr (1000 + n % 9000)),
   ("notification_failures", "Notification delivery failed: " ++ kw
     ++ " to user " ++ natStr (1000 + n % 9000)),
   ("high_warn_rate", "Performance warning: " ++ kw ++ " detected in service operation"),
   ("audit_issues", "Security audit issue: " ++ kw ++ " detected in user action"),
   ("cross_service_errors", "Service communication error: " ++ kw
     ++ " when calling downstream service"),
   ("checkout_payment_failed", "Checkout process failed: " ++ kw
     ++ " for order #" ++ natStr (10000 + n % 90000)),
   ("inventory_stock_unavailable", "Inventory management: " ++ kw
     ++ " for item SKU-" ++ natStr (1000 + n % 9000)),
   ("email_smtp_failed", "Email service error: " ++ kw ++ " while sending notification"),
   ("redis_connection_refused", "Cache service error: " ++ kw ++ " - unable to connect to Redis"),
   ("message_queue_full", "Message broker alert: " ++ kw ++ " - unable to enqueue message"),
   ("timeout_any_service", "Service operation: " ++ kw ++ " after waiting 30 seconds"),
   ("slow_query", "Database performance: " ++ kw ++ " detected - execution time exceeded threshold"),
   ("deadlock_detected", "Database concurrency issue: " ++ kw ++ " in transaction processing")]

/-- `messages.get(pattern_name, f"Service log: \x7bkeyword\x7d")`. -/
def patternMessage (mode name service kw : String) (n : Nat) : String :=
  if mode == "test" then
    (List.lookup name (testMessages kw n)).getD ("Service log: " ++ kw)
  else
    (List.lookup name (prodMessages service kw n)).getD ("Service log: " ++ kw)

/-- Random draws consumed by `generate_pattern_log`. -/
structure PDraw where
  serviceIdx : Nat
  levelIdx : Nat
  kwIdx : Nat
  msgNum : Nat
  base : BaseDraw

/-- `generate_pattern_log` of `mock_log_generator.py`: base envelope, the
pattern-specific message, then the compact-JSON `raw` copy of
`{timestamp, level, message, service}` (structural, per the module header). -/
def generate_pattern_log (selfNamespace nodeName mode name : String)
    (cfg : Pattern) (d : PDraw) : Rec :=
  let sl := patternServiceLevel mode name cfg d.serviceIdx d.levelIdx
  let log := generate_base_log selfNamespace nodeName sl.1 sl.2 d.base
  let kw := cfg.keywords.getD (d.kwIdx % cfg.keywords.length) ""
  let log := dictSet log "message" (JValue.str (patternMessage mode name sl.1 kw d.msgNum))
  dictSet log "raw" (JValue.obj
    [("timestamp", (List.lookup "timestamp" log).getD (JValue.str "")),
     ("level", (List.lookup "level" log).getD (JValue.str "")),
     ("message", (List.lookup "message" log).getD (JValue.str "")),
     ("service", (List.lookup "service" log).getD (JValue.str ""))])

/-- The ten benign templates of `generate_normal_log` (each Python entry draws
its own `randint`; `n1`–`n5` model the draws of the entries that use one). -/
def normalMessages (service : String) (n1 n2 n3 n4 n5 : Nat) : List String :=
  ["Request processed successfully for user " ++ natStr (1000 + n1 % 9000),
   "Service " ++ service ++ " started successfully",
   "Database query completed in " ++ natStr (10 + n2 % 491) ++ "ms",
   "Cache hit for key user:" ++ natStr (1000 + n3 % 9000),
   "Health check passed for " ++ service,
   "Processing batch job with " ++ natStr (10 + n4 % 91) ++ " items",
   "User session created for user " ++ natStr (1000 + n5 % 9000),
   "Configuration loaded successfully",
   "Metrics published to monitoring system",
   "Background task completed successfully"]

/-- Random draws consumed by `generate_normal_log`. -/
structure NDraw where
  serviceIdx : Nat
  levelIdx : Nat
  msgIdx : Nat
  n1 : Nat
  n2 : Nat
  n3 : Nat
  n4 : Nat
  n5 : Nat
  base : BaseDraw

/-- `generate_normal_log` of `mock_log_generator.py`. -/
def generate_normal_log (selfNamespace nodeName : String) (d : NDraw) : Rec :=
  let service := services.getD (d.serviceIdx % services.length) ""
  let level := ["INFO", "DEBUG"].getD (d.levelIdx % 2) ""
  let log := generate_base_log selfNamespace nodeName service level d.base
  let log := dictSet log "message"
    (JValue.str ((normalMessages service d.n1 d.n2 d.n3 d.n4 d.n5).getD
      (d.msgIdx % (normalMessages service d.n1 d.n2 d.n3 d.n4 d.n5).length) ""))
  dictSet log "raw" (JValue.obj
    [("timestamp", (List.lookup "timestamp" log).getD (JValue.str "")),
     ("level", (List.lookup "level" log).getD (JValue.str "")),
     ("message", (List.lookup "message" log).getD (JValue.str "")),
     ("service", (List.lookup "service" log).getD (JValue.str ""))])

/-- The burst size chosen by `generate_pattern_burst` when `count` is `None`:
2 in test mode, else `threshold (default 5) + randint(1, 3)` (the draw is
modelled by `1 + r % 3`). -/
def burstCount (mode : String) (cfg : Pattern) (count : Option Nat) (r : Nat) : Nat :=
  match count with
  | some c => c
  | none =>
    if mode == "test" then 2
    else cfg.conditions.threshold.getD 5 + (1 + r % 3)

/-- `generate_pattern_burst` of `mock_log_generator.py`: the list of records
emitted (each iteration draws fresh randomness, via `draws`). -/
def generate_pattern_burst (selfNamespace nodeName mode name : String)
    (cfg : Pattern) (count : Option Nat) (r : Nat) (draws : Nat → PDraw) : List Rec :=
  (List.range (burstCount mode cfg count r)).map
    (fun i => generate_pattern_log selfNamespace nodeName mode name cfg (draws i))

end MockLogGenerator

/-- Outcome of the body of one `while self.running` cycle: it either completes
or raises an exception (carrying its message). -/
inductive CycleOutcome where
  | ok : CycleOutcome
  | raised : String → CycleOutcome

/-- What one loop iteration does next: exit the loop normally (`stopped`), go
round again after a back-off sleep (`resumed`), or let an exception propagate
out of the loop (`crashed`). -/
inductive LoopStep where
  | stopped : LoopStep
  | resumed : Nat → LoopStep
  | crashed : String → LoopStep
deriving DecidableEq

/-- How the selected mode's driver finished inside `start`: ran to completion,
was interrupted (KeyboardInterrupt), or raised some other exception. -/
inductive BodyResult where
  | completed : BodyResult
  | interrupted : BodyResult
  | raised : String → BodyResult

namespace MockLogGenerator

/-- One iteration of `continuous_generation`'s `while self.running` loop in
`mock_log_generator.py`: the whole cycle body sits inside
`try ... except Exception: log; time.sleep(10)`, so an exception is caught and
the loop resumes after a 10-second back-off. -/
def continuousStep (running : Bool) (c : CycleOutcome) : LoopStep :=
  if !running then LoopStep.stopped
  else match c with
    | CycleOutcome.ok => LoopStep.resumed 0
    | CycleOutcome.raised _ => LoopStep.resumed 10

/-- `start` of `mock_log_generator.py`: dispatch on mode; unknown mode logs an
error and returns `False`; `KeyboardInterrupt` is caught (returns `True`);
any other exception returns `False`. -/
def start (mode : String) (body : BodyResult) : Bool :=
  if mode == "test" || mode == "continuous" then
    match body with
    | BodyResult.raised _ => false
    | _ => true
  else false

/-- The `__main__` block: `sys.exit(1)` when `start` returned `False`, else a
normal exit (code 0). -/
def mainExitCode (mode : String) (body : BodyResult) : Nat :=
  if start mode body then 0 else 1

end MockLogGenerator

namespace MockLogForwarder

/-- `self.services` of `mock_log_forwarder.py` (textually identical to the
generator's list). -/
def services : List String :=
  ["payment-service", "user-service", "database-service",
   "authentication-api", "inventory-service", "notification-service",
   "order-service", "shipping-service", "billing-service", "audit-service",
   "checkout-service", "email-service", "redis-cache", "message-queue"]

/-- `self.patterns` of `mock_log_forwarder.py`. The catalog is textually
identical to `mock_log_generator.py`'s (verified by diff of the two sources),
so it is transcribed once; `patterns_eq` below records the identity. -/
def patterns : List (String × Pattern) := MockLogGenerator.patterns

/-- Random draws consumed by the forwarder's `generate_base_log`. -/
structure FBaseDraw where
  ts1 : String
  ts2 : String
  nsIdx : Nat
  podNum : Nat
  podSufIdx : Nat
  workerN : Nat
  threadN : Nat
  traceN : Nat
  vMajor : Nat
  vMinor : Nat
  vPatch : Nat

/-- `generate_base_log` of `mock_log_forwarder.py` (note: no `raw`, no
`hostname`/`log_source`/`log_type`, namespace drawn from three names only,
and extra `thread_id`/`trace_id` fields). -/
def generate_base_log (service level : String) (d : FBaseDraw) : Rec :=
  let ns := ["production", "staging", "development"].getD (d.nsIdx % 3) ""
  let pod_id := service ++ "-" ++ natStr (10000 + d.podNum % 90000) ++ "-"
    ++ ["abc", "def", "xyz"].getD (d.podSufIdx % 3) ""
  [("timestamp", JValue.str d.ts1),
   ("@timestamp", JValue.str d.ts2),
   ("level", JValue.str level),
   ("service", JValue.str service),
   ("namespace", JValue.str ns),
   ("host", JValue.str ("worker-node-" ++ natStr (1 + d.workerN % 3))),
   ("thread_id", JValue.str ("thread-" ++ natStr (1 + d.threadN % 20))),
   ("trace_id", JValue.str ("trace-" ++ natStr (100000 + d.traceN % 900000))),
   ("kubernetes", JValue.obj
     [("namespace", JValue.str ns),
      ("pod", JValue.str pod_id),
      ("container", JValue.str service),
      ("labels", JValue.obj
        [("app", JValue.str service),
         ("version", JValue.str ("v" ++ natStr (1 + d.vMajor % 3) ++ "."
           ++ natStr (d.vMinor % 10) ++ "." ++ natStr (d.vPatch % 10))),
         ("environment", JValue.str ns),
         ("component", JValue.str (if strHasSub service "-"
           then (service.splitOn "-").getD 0 "" else service))])])]

/-- The `messages` dict of the forwarder's `generate_pattern_log` (textually
identical to the generator's continuous-mode dict, verified by diff). -/
def patternMessages (service kw : String) (n : Nat) : List (String × String) :=
  MockLogGenerator.prodMessages service kw n

/-- Random draws consumed by the forwarder's `generate_pattern_log`. -/
structure FPDraw where
  serviceIdx : Nat
  levelIdx : Nat
  kwIdx : Nat
  msgNum : Nat
  reqN : Nat
  userN : Nat
  sessN : Nat
  base : FBaseDraw

/-- `generate_pattern_log` of `mock_log_forwarder.py`: no mode overrides, no
`raw` field; adds `request_id`/`user_id`/`session_id` and mirrors
`kubernetes.namespace` into `kubernetes.namespace_name`. -/
def generate_pattern_log (name : String) (cfg : Pattern) (d : FPDraw) : Rec :=
  let service := cfg.services.getD (d.serviceIdx % cfg.services.length) ""
  let level := match cfg.conditions.log_level with
    | some l => l
    | none => fourLevels.getD (d.levelIdx % fourLevels.length) ""
  let log := generate_base_log service level d.base
  let kw := cfg.keywords.getD (d.kwIdx % cfg.keywords.length) ""
  let log := dictSet log "message"
    (JValue.str ((List.lookup name (patternMessages service kw d.msgNum)).getD
      ("Service log: " ++ kw)))
  let log := dictSet log "request_id" (JValue.str ("req-" ++ natStr (100000 + d.reqN % 900000)))
  let log := dictSet log "user_id" (JValue.str ("user-" ++ natStr (1000 + d.userN % 9000)))
  let log := dictSet log "session_id" (JValue.str ("session-" ++ natStr (100000 + d.sessN % 900000)))
  match List.lookup "kubernetes" log with
  | some (JValue.obj kube) =>
    dictSet log "kubernetes"
      (JValue.obj (dictSet kube "namespace_name" ((List.lookup "namespace" kube).getD (JValue.str ""))))
  | _ => log

/-- Random draws consumed by the forwarder's `generate_normal_log`. -/
structure FNDraw where
  serviceIdx : Nat
  levelIdx : Nat
  msgIdx : Nat
  n1 : Nat
  n2 : Nat
  n3 : Nat
  n4 : Nat
  n5 : Nat
  reqN : Nat
  base : FBaseDraw

/-- The forwarder's ten benign templates (textually identical to the
generator's, verified by diff). -/
def normalMessages (service : String) (n1 n2 n3 n4 n5 : Nat) : List String :=
  MockLogGenerator.normalMessages service n1 n2 n3 n4 n5

/-- `generate_normal_log` of `mock_log_forwarder.py` (no `raw` field; adds a
`request_id`). -/
def generate_normal_log (d : FNDraw) : Rec :=
  let service := services.getD (d.serviceIdx % services.length) ""
  let level := ["INFO", "DEBUG"].getD (d.levelIdx % 2) ""
  let log := generate_base_log service level d.base
  let log := dictSet log "message"
    (JValue.str ((normalMessages service d.n1 d.n2 d.n3 d.n4 d.n5).getD
      (d.msgIdx % (normalMessages service d.n1 d.n2 d.n3 d.n4 d.n5).length) ""))
  dictSet log "request_id" (JValue.str ("req-" ++ natStr (100000 + d.reqN % 900000)))

/-- `send_log` of `mock_log_forwarder.py`: returns the Kafka message key and
the transformed envelope. `json.dumps(log_entry)` (the original record as a
JSON-encoded string in the `message` field) is modelled structurally as
`JValue.obj log` per the module header; `now` models the
`datetime.utcnow()` default used when `@timestamp` is absent. -/
def send_log (now : String) (log : Rec) : String × Rec :=
  let transformed : Rec :=
    [("message", JValue.obj log),
     ("@timestamp", (List.lookup "@timestamp" log).getD (JValue.str now)),
     ("level", JValue.str (strLower (recField log "level")) ),
     ("kubernetes", (List.lookup "kubernetes" log).getD (JValue.obj [])),
     ("host", (List.lookup "host" log).getD (JValue.str "unknown")),
     ("stream", JValue.str "stdout"),
     ("tag", JValue.str "kubernetes.var.log.containers"),
     ("source_type", JValue.str "kubernetes_logs")]
  (recField log "service" ++ "-" ++ recField log "level", transformed)

/-- `generate_pattern_burst` of `mock_log_forwarder.py`: the count is a
required argument here (there is no auto-calculation in this script). -/
def generate_pattern_burst (name : String) (cfg : Pattern) (count : Nat)
    (draws : Nat → FPDraw) : List Rec :=
  (List.range count).map (fun i => generate_pattern_log name cfg (draws i))

/-- The burst count used by `test_all_patterns` for one pattern:
`threshold (default 5) + 2`. -/
def testBurstCount (cfg : Pattern) : Nat := cfg.conditions.threshold.getD 5 + 2

/-- The records `test_all_patterns` emits for one pattern. -/
def testPatternRecords (name : String) (cfg : Pattern) (draws : Nat → FPDraw) : List Rec :=
  generate_pattern_burst name cfg (testBurstCount cfg) draws

/-- The burst count used by `continuous_generation` when a burst cycle fires:
`threshold (default 5) + randint(1, 5)` (the draw is modelled by `1 + r % 5`). -/
def continuousBurstCount (cfg : Pattern) (r : Nat) : Nat :=
  cfg.conditions.threshold.getD 5 + (1 + r % 5)

/-- The records a continuous-mode burst cycle emits for one pattern. -/
def continuousBurstRecords (name : String) (cfg : Pattern) (r : Nat)
    (draws : Nat → FPDraw) : List Rec :=
  generate_pattern_burst name cfg (continuousBurstCount cfg r) draws

/-- One iteration of the forwarder's `continuous_generation` `while` loop:
the body has NO try/except, so an exception propagates and ends the loop. -/
def continuousStep (running : Bool) (c : CycleOutcome) : LoopStep :=
  if !running then LoopStep.stopped
  else match c with
    | CycleOutcome.ok => LoopStep.resumed 0
    | CycleOutcome.raised e => LoopStep.crashed e

/-- `start` of `mock_log_forwarder.py`: `False` when Kafka is unreachable;
only the continuous branch catches `KeyboardInterrupt`; other exceptions (and
any interrupt in test mode) propagate, modelled by `Except.error`. -/
def start (connectOk : Bool) (mode : String) (body : BodyResult) : Except String Bool :=
  if !connectOk then Except.ok false
  else if mode == "test" then
    match body with
    | BodyResult.completed => Except.ok true
    | BodyResult.interrupted => Except.error "KeyboardInterrupt"
    | BodyResult.raised e => Except.error e
  else if mode == "continuous" then
    match body with
    | BodyResult.raised e => Except.error e
    | _ => Except.ok true
  else Except.ok true

/-- The `__main__` block: `sys.exit(1)` when `start` returned `False`; an
uncaught exception also terminates the process unsuccessfully (Python exits
with a nonzero status, shown as 1 here). -/
def mainExitCode (connectOk : Bool) (mode : String) (body : BodyResult) : Nat :=
  match start connectOk mode body with
  | Except.ok true => 0
  | Except.ok false => 1
  | Except.error _ => 1

end MockLogForwarder

/-- All keywords of all catalog patterns, concatenated (used to settle claims
about normal messages against the whole catalog at once). -/
def allCatalogKeywords : List String :=
  MockLogGenerator.patterns.foldr (fun p acc => p.2.keywords ++ acc) []

/-- The catalog entry for `high_error_rate` (as written in both sources). -/
def cfgHighErrorRate : Pattern :=
  ⟨{ log_level := some "ERROR", threshold := some 10, time_window := some 300 },
   ["error", "failed", "exception", "timeout"],
   ["payment-service", "user-service", "database-service"]⟩

/-- The catalog entry for `database_errors`. -/
def cfgDatabaseErrors : Pattern :=
  ⟨{ log_level := some "ERROR", service := some "database-service", threshold := some 3 },
   ["connection refused", "deadlock detected", "query timeout"],
   ["database-service"]⟩

/-- The catalog entry for `high_warn_rate`. -/
def cfgHighWarnRate : Pattern :=
  ⟨{ log_level := some "WARN", threshold := some 25, time_window := some 600 },
   ["warning", "deprecated", "slow response", "performance"],
   ["order-service", "shipping-service", "billing-service"]⟩

/-- The catalog entry for `audit_issues`. -/
def cfgAuditIssues : Pattern :=
  ⟨{ service := some "audit-service", keywords := some ["audit"], threshold := some 5 },
   ["audit trail", "security audit", "access violation", "unauthorized access"],
   ["audit-service"]⟩

/-- A concrete draw for the generator's base envelope (used by witnesses). -/
def bd0 : MockLogGenerator.BaseDraw :=
  ⟨"2026-01-01T00:00:00.000000Z", "2026-01-01T00:00:00.000000Z",
   0, 0, 0, "0123456789ab", 0, 0, 0, 0, 0, 0, 0, "cafebabe"⟩

/-- A concrete pattern-log draw for the generator. -/
def pd0 : MockLogGenerator.PDraw := ⟨0, 0, 0, 0, bd0⟩

/-- A concrete normal-log draw for the generator that selects the service
`audit-service` (index 9) and the template `Health check passed for ...`
(index 4). -/
def nd0 : MockLogGenerator.NDraw := ⟨9, 0, 4, 0, 0, 0, 0, 0, bd0⟩

/-- A concrete normal-log draw for the generator selecting service index 0 and
template index 0. -/
def nd1 : MockLogGenerator.NDraw := ⟨0, 0, 0, 0, 0, 0, 0, 0, bd0⟩

/-- A concrete draw for the forwarder's base envelope. -/
def fbd0 : MockLogForwarder.FBaseDraw :=
  ⟨"2026-01-01T00:00:00.000000Z", "2026-01-01T00:00:00.000000Z",
   0, 0, 0, 0, 0, 0, 0, 0, 0⟩

/-- A concrete pattern-log draw for the forwarder. -/
def fpd0 : MockLogForwarder.FPDraw := ⟨0, 0, 0, 0, 0, 0, 0, fbd0⟩

/-- A concrete normal-log draw for the forwarder. -/
def fnd0 : MockLogForwarder.FNDraw := ⟨0, 0, 0, 0, 0, 0, 0, 0, 0, fbd0⟩

theorem strData_append (a b : String) : (a ++ b).data = a.data ++ b.data := rfl

theorem listStartsWith_self_append (kw b : List Char) :
    listStartsWith (kw ++ b) kw = true := by
  induction kw with
  | nil => cases b <;> rfl
  | cons c cs ih => simp [listStartsWith, ih]

theorem listStartsWith_refl (kw : List Char) : listStartsWith kw kw = true := by
  have h := listStartsWith_self_append kw []
  simpa using h

theorem listHasSub_of_startsWith (s kw : List Char) :
    listStartsWith s kw = true → listHasSub s kw = true := by
  cases s with
  | nil =>
    cases kw with
    | nil => intro _; rfl
    | cons c cs => intro h; simp [listStartsWith] at h
  | cons a as =>
    intro h
    simp [listHasSub, h]

theorem listHasSub_cons (a : Char) (as kw : List Char) :
    listHasSub as kw = true → listHasSub (a :: as) kw = true := by
  intro h
  simp [listHasSub, h]

theorem listHasSub_append_left (pre s kw : List Char) :
    listHasSub s kw = true → listHasSub (pre ++ s) kw = true := by
  induction pre with
  | nil => intro h; simpa using h
  | cons a as ih => intro h; exact listHasSub_cons a _ kw (ih h)

theorem strHasSub_right (a s kw : String) :
    strHasSub s kw = true → strHasSub (a ++ s) kw = true := by
  intro h
  unfold strHasSub at h ⊢
  rw [strData_append]
  exact listHasSub_append_left a.data s.data kw.data h

theorem strHasSub_first (kw b : String) : strHasSub (kw ++ b) kw = true := by
  unfold strHasSub
  rw [strData_append]
  exact listHasSub_of_startsWith _ _ (listStartsWith_self_append kw.data b.data)

theorem strHasSub_rfl (kw : String) : strHasSub kw kw = true :=
  listHasSub_of_startsWith _ _ (listStartsWith_refl kw.data)

theorem digitChar_isDigit (n : Nat) (h : n < 10) : (digitChar n).isDigit = true := by
  interval_cases n <;> decide

theorem natDigits_isDigit (n : Nat) : ∀ c ∈ natDigits n, c.isDigit = true := by
  induction n using Nat.strong_induction_on with
  | _ n ih =>
    rw [natDigits]
    split
    · intro c hc
      simp only [List.mem_singleton] at hc
      subst hc
      exact digitChar_isDigit n (by omega)
    · intro c hc
      rw [List.mem_append] at hc
      rcases hc with hc | hc
      · exact ih (n / 10) (Nat.div_lt_self (by omega) (by omega)) c hc
      · simp only [List.mem_singleton] at hc
        subst hc
        exact digitChar_isDigit (n % 10) (Nat.mod_lt _ (by omega))

theorem natDigits_ne_nil (n : Nat) : natDigits n ≠ [] := by
  rw [natDigits]
  split
  · simp
  · simp

/-- A prefix of `pre ++ ds ++ suf` that is free of digit characters, where
`ds` is a nonempty run of digits, is already a prefix of `pre`. -/
theorem listStartsWith_digit_mid (ds suf : List Char)
    (hds : ∀ c ∈ ds, c.isDigit = true) (hne : ds ≠ []) :
    ∀ kw, (∀ c ∈ kw, c.isDigit = false) →
    ∀ pre, listStartsWith (pre ++ ds ++ suf) kw = true → listStartsWith pre kw = true := by
  intro kw hkw pre
  induction pre generalizing kw with
  | nil =>
    intro h
    cases kw with
    | nil => rfl
    | cons k kt =>
      exfalso
      cases ds with
      | nil => exact hne rfl
      | cons d dt =>
        simp only [List.nil_append, List.cons_append, listStartsWith, Bool.and_eq_true,
          beq_iff_eq] at h
        have hd : d.isDigit = true := hds d (by simp)
        have hk : k.isDigit = false := hkw k (by simp)
        rw [h.1] at hd
        rw [hd] at hk
        simp at hk
  | cons p pt ih =>
    intro h
    cases kw with
    | nil => rfl
    | cons k kt =>
      simp only [List.cons_append, listStartsWith, Bool.and_eq_true] at h ⊢
      exact ⟨h.1, ih kt (fun c hc => hkw c (List.mem_cons_of_mem k hc)) h.2⟩

/-- A digit-free nonempty word does not occur in `ds ++ suf` when `ds` is all
digits and the word does not occur in `suf`. -/
theorem listHasSub_digit_run (suf kw : List Char)
    (hkne : kw ≠ []) (hkw : ∀ c ∈ kw, c.isDigit = false)
    (hsuf : listHasSub suf kw = false) :
    ∀ ds, (∀ c ∈ ds, c.isDigit = true) → listHasSub (ds ++ suf) kw = false := by
  intro ds
  induction ds with
  | nil => intro _; simpa using hsuf
  | cons d dt ih =>
    intro hds
    have hsw : listStartsWith (d :: (dt ++ suf)) kw = false := by
      cases kw with
      | nil => exact absurd rfl hkne
      | cons k kt =>
        simp only [listStartsWith, Bool.and_eq_false_iff]
        left
        have hd : d.isDigit = true := hds d (by simp)
        have hk : k.isDigit = false := hkw k (by simp)
        rw [beq_eq_false_iff_ne]
        intro he
        rw [he] at hd
        rw [hd] at hk
        simp at hk
    simp only [List.cons_append, listHasSub, Bool.or_eq_false_iff]
    exact ⟨hsw, ih (fun c hc => hds c (List.mem_cons_of_mem d hc))⟩

/-- Key straddle lemma: a digit-free nonempty word `kw` cannot occur in
`pre ++ ds ++ suf` when `ds` is a nonempty run of digits and `kw` occurs in
neither `pre` nor `suf`. -/
theorem listHasSub_digit_mid (pre ds suf kw : List Char)
    (hkne : kw ≠ []) (hkw : ∀ c ∈ kw, c.isDigit = false)
    (hds : ∀ c ∈ ds, c.isDigit = true) (hdsne : ds ≠ [])
    (hpre : listHasSub pre kw = false) (hsuf : listHasSub suf kw = false) :
    listHasSub (pre ++ ds ++ suf) kw = false := by
  induction pre with
  | nil =>
    simpa using listHasSub_digit_run suf kw hkne hkw hsuf ds hds
  | cons p pt ih =>
    have hpre2 : listHasSub pt kw = false := by
      by_contra hc
      have hc2 : listHasSub pt kw = true := by
        cases h2 : listHasSub pt kw
        · exact absurd h2 hc
        · rfl
      rw [listHasSub_cons p pt kw hc2] at hpre
      simp at hpre
    have ihp := ih hpre2
    have hsw : listStartsWith (p :: pt ++ ds ++ suf) kw = false := by
      by_contra hc
      have hc2 : listStartsWith (p :: pt ++ ds ++ suf) kw = true := by
        cases h2 : listStartsWith (p :: pt ++ ds ++ suf) kw
        · exact absurd h2 hc
        · rfl
      have := listStartsWith_digit_mid ds suf hds hdsne kw hkw (p :: pt) hc2
      rw [listHasSub_of_startsWith (p :: pt) kw this] at hpre
      simp at hpre
    cases kw with
    | nil => exact absurd rfl hkne
    | cons k kt =>
      simp only [List.cons_append, listHasSub, Bool.or_eq_false_iff]
      constructor
      · simpa using hsw
      · simpa using ihp

/-- String-level version of the straddle lemma, specialised to an interpolated
decimal number: `kw` does not occur in `pre ++ natStr n ++ suf`. -/
theorem strHasSub_mid_digits (pre suf kw : String) (n : Nat)
    (hkne : kw.data ≠ []) (hkw : ∀ c ∈ kw.data, c.isDigit = false)
    (hpre : strHasSub pre kw = false) (hsuf : strHasSub suf kw = false) :
    strHasSub (pre ++ natStr n ++ suf) kw = false := by
  unfold strHasSub at hpre hsuf ⊢
  have he : (pre ++ natStr n ++ suf).data = pre.data ++ natDigits n ++ suf.data := by
    simp [strData_append, natStr]
  rw [he]
  exact listHasSub_digit_mid pre.data (natDigits n) suf.data kw.data
    hkne hkw (natDigits_isDigit n) (natDigits_ne_nil n) hpre hsuf

/-- As above, with the number at the end of the message. -/
theorem strHasSub_end_digits (pre kw : String) (n : Nat)
    (hkne : kw.data ≠ []) (hkw : ∀ c ∈ kw.data, c.isDigit = false)
    (hpre : strHasSub pre kw = false) :
    strHasSub (pre ++ natStr n) kw = false := by
  have hsuf : strHasSub "" kw = false := by
    unfold strHasSub
    cases hk : kw.data with
    | nil => exact absurd hk hkne
    | cons k kt => simp [listHasSub, hk, List.isEmpty]
  have h := strHasSub_mid_digits pre "" kw n hkne hkw hpre hsuf
  unfold strHasSub at h ⊢
  simpa [strData_append] using h

/-- Extract one membership fact from a `List.all` boolean check. -/
theorem safe_of_all {l : List String} {s kw : String}
    (h : l.all (fun k => !strHasSub s k) = true) (hm : kw ∈ l) :
    strHasSub s kw = false := by
  have := List.all_eq_true.mp h kw hm
  simpa using this

theorem getD_mem_of_lt {α : Type} (l : List α) (n : Nat) (d : α)
    (h : n < l.length) : l.getD n d ∈ l := by
  induction l generalizing n with
  | nil => simp at h
  | cons a t ih =>
    cases n with
    | zero => simp [List.getD]
    | succ m =>
      have : m < t.length := by simpa using h
      simp only [List.getD_cons_succ]
      exact List.mem_cons_of_mem a (ih m this)

theorem lookup_getD_prop {α : Type} (P : α → Prop) :
    ∀ (l : List (String × α)) (k : String) (d : α),
    (∀ p ∈ l, P p.2) → P d → P ((List.lookup k l).getD d) := by
  intro l
  induction l with
  | nil => intro k d _ hd; simpa [List.lookup] using hd
  | cons p t ih =>
    intro k d hl hd
    rw [List.lookup]
    by_cases hk : k == p.1
    · simp only [hk]
      exact hl p (by simp)
    · have hk2 : (k == p.1) = false := by
        cases h2 : (k == p.1)
        · rfl
        · exact absurd h2 hk
      simp only [hk2]
      exact ih k d (fun q hq => hl q (List.mem_cons_of_mem p hq)) hd

theorem normalMessages_length (s : String) (n1 n2 n3 n4 n5 : Nat) :
    (MockLogGenerator.normalMessages s n1 n2 n3 n4 n5).length = 10 := rfl

theorem gen_recMessage (sns nn mode name : String) (cfg : Pattern)
    (d : MockLogGenerator.PDraw) :
    recMessage (MockLogGenerator.generate_pattern_log sns nn mode name cfg d) =
    MockLogGenerator.patternMessage mode name
      (MockLogGenerator.patternServiceLevel mode name cfg d.serviceIdx d.levelIdx).1
      (cfg.keywords.getD (d.kwIdx % cfg.keywords.length) "") d.msgNum := rfl

theorem gen_recLevel (sns nn mode name : String) (cfg : Pattern)
    (d : MockLogGenerator.PDraw) :
    recLevel (MockLogGenerator.generate_pattern_log sns nn mode name cfg d) =
    (MockLogGenerator.patternServiceLevel mode name cfg d.serviceIdx d.levelIdx).2 := rfl

theorem gen_recService (sns nn mode name : String) (cfg : Pattern)
    (d : MockLogGenerator.PDraw) :
    recService (MockLogGenerator.generate_pattern_log sns nn mode name cfg d) =
    (MockLogGenerator.patternServiceLevel mode name cfg d.serviceIdx d.levelIdx).1 := rfl

theorem gen_normal_recMessage (sns nn : String) (d : MockLogGenerator.NDraw) :
    recMessage (MockLogGenerator.generate_normal_log sns nn d) =
    (MockLogGenerator.normalMessages
      (MockLogGenerator.services.getD (d.serviceIdx % MockLogGenerator.services.length) "")
      d.n1 d.n2 d.n3 d.n4 d.n5).getD (d.msgIdx % 10) "" := rfl

theorem fwd_recMessage (name : String) (cfg : Pattern) (d : MockLogForwarder.FPDraw) :
    recMessage (MockLogForwarder.generate_pattern_log name cfg d) =
    (List.lookup name (MockLogForwarder.patternMessages
      (cfg.services.getD (d.serviceIdx % cfg.services.length) "")
      (cfg.keywords.getD (d.kwIdx % cfg.keywords.length) "") d.msgNum)).getD
      ("Service log: " ++ cfg.keywords.getD (d.kwIdx % cfg.keywords.length) "") := rfl

theorem fwd_recLevel (name : String) (cfg : Pattern) (d : MockLogForwarder.FPDraw) :
    recLevel (MockLogForwarder.generate_pattern_log name cfg d) =
    defaultLevel cfg d.levelIdx := rfl

theorem fwd_recService (name : String) (cfg : Pattern) (d : MockLogForwarder.FPDraw) :
    recService (MockLogForwarder.generate_pattern_log name cfg d) =
    cfg.services.getD (d.serviceIdx % cfg.services.length) "" := rfl

theorem fwd_normal_recMessage (d : MockLogForwarder.FNDraw) :
    recMessage (MockLogForwarder.generate_normal_log d) =
    (MockLogForwarder.normalMessages
      (MockLogForwarder.services.getD (d.serviceIdx % MockLogForwarder.services.length) "")
      d.n1 d.n2 d.n3 d.n4 d.n5).getD (d.msgIdx % 10) "" := rfl

theorem fwd_pattern_rawOf (name : String) (cfg : Pattern) (d : MockLogForwarder.FPDraw) :
    rawOf (MockLogForwarder.generate_pattern_log name cfg d) = none := rfl

theorem fwd_normal_rawOf (d : MockLogForwarder.FNDraw) :
    rawOf (MockLogForwarder.generate_normal_log d) = none := rfl

theorem listStartsWith_append_right (b : List Char) :
    ∀ s kw, listStartsWith s kw = true → listStartsWith (s ++ b) kw = true := by
  intro s
  induction s with
  | nil =>
    intro kw h
    cases kw with
    | nil => cases b <;> rfl
    | cons k kt => simp [listStartsWith] at h
  | cons a as ih =>
    intro kw h
    cases kw with
    | nil => rfl
    | cons k kt =>
      simp only [listStartsWith, Bool.and_eq_true] at h
      simp only [List.cons_append, listStartsWith, Bool.and_eq_true]
      exact ⟨h.1, ih kt h.2⟩

theorem listHasSub_nil_kw (s : List Char) : listHasSub s [] = true := by
  cases s with
  | nil => rfl
  | cons a as => simp [listHasSub, listStartsWith]

theorem listHasSub_append_right (s b kw : List Char) :
    listHasSub s kw = true → listHasSub (s ++ b) kw = true := by
  induction s with
  | nil =>
    intro h
    cases kw with
    | nil => exact listHasSub_nil_kw b
    | cons k kt => simp [listHasSub, List.isEmpty] at h
  | cons a as ih =>
    intro h
    simp only [listHasSub, Bool.or_eq_true] at h
    rcases h with h | h
    · simp only [List.cons_append, listHasSub, Bool.or_eq_true]
      left
      have h2 := listStartsWith_append_right b (a :: as) kw h
      simpa using h2
    · simp only [List.cons_append, listHasSub, Bool.or_eq_true]
      right
      exact ih h

theorem strHasSub_left (s b kw : String) :
    strHasSub s kw = true → strHasSub (s ++ b) kw = true := by
  intro h
  unfold strHasSub at h ⊢
  rw [strData_append]
  exact listHasSub_append_right s.data b.data kw.data h

theorem strHasSub_last (a kw : String) : strHasSub (a ++ kw) kw = true :=
  strHasSub_right a kw kw (strHasSub_rfl kw)

theorem patternServiceLevel_test (name : String) (cfg : Pattern) (si li : Nat) :
    MockLogGenerator.patternServiceLevel "test" name cfg si li =
    (match MockLogGenerator.e2eOverrides name with
     | some (lv, sv) => (sv, lv)
     | none => (cfg.services.getD (si % cfg.services.length) "", defaultLevel cfg li)) := rfl

theorem patternServiceLevel_not_test (mode name : String) (cfg : Pattern) (si li : Nat)
    (h : (mode == "test") = false) :
    MockLogGenerator.patternServiceLevel mode name cfg si li =
    (cfg.services.getD (si % cfg.services.length) "", defaultLevel cfg li) := by
  unfold MockLogGenerator.patternServiceLevel defaultLevel
  simp only [h, Bool.false_eq_true, if_false]

theorem length_pos_of_isEmpty_false {α : Type} {l : List α}
    (h : l.isEmpty = false) : 0 < l.length := by
  cases l with
  | nil => simp [List.isEmpty] at h
  | cons a t => simp

theorem patterns_lists_nonempty :
    MockLogGenerator.patterns.all
      (fun p => !p.2.keywords.isEmpty && !p.2.services.isEmpty) = true := by decide

theorem catalog_keywords_length_pos {name : String} {cfg : Pattern}
    (h : (name, cfg) ∈ MockLogGenerator.patterns) : 0 < cfg.keywords.length := by
  have hb := List.all_eq_true.mp patterns_lists_nonempty _ h
  simp only [Bool.and_eq_true, Bool.not_eq_true'] at hb
  exact length_pos_of_isEmpty_false hb.1

theorem catalog_services_length_pos {name : String} {cfg : Pattern}
    (h : (name, cfg) ∈ MockLogGenerator.patterns) : 0 < cfg.services.length := by
  have hb := List.all_eq_true.mp patterns_lists_nonempty _ h
  simp only [Bool.and_eq_true, Bool.not_eq_true'] at hb
  exact length_pos_of_isEmpty_false hb.2

theorem testMessages_contains (kw : String) (n : Nat) :
    ∀ p ∈ MockLogGenerator.testMessages kw n, strHasSub p.2 kw = true := by
  intro p hp
  simp only [MockLogGenerator.testMessages, List.mem_cons, List.not_mem_nil, or_false] at hp
  rcases hp with rfl | rfl | rfl | rfl | rfl | rfl | rfl | rfl | rfl | rfl | rfl | rfl <;>
    (repeat first
      | exact strHasSub_last _ _
      | exact strHasSub_rfl _
      | apply strHasSub_left)

theorem prodMessages_contains (service kw : String) (n : Nat) :
    ∀ p ∈ MockLogGenerator.prodMessages service kw n, strHasSub p.2 kw = true := by
  intro p hp
  simp only [MockLogGenerator.prodMessages, List.mem_cons, List.not_mem_nil, or_false] at hp
  rcases hp with rfl | rfl | rfl | rfl | rfl | rfl | rfl | rfl | rfl | rfl | rfl | rfl | rfl
    | rfl | rfl | rfl | rfl | rfl | rfl <;>
    (repeat first
      | exact strHasSub_last _ _
      | exact strHasSub_rfl _
      | apply strHasSub_left)

theorem patternMessage_contains (mode name service kw : String) (n : Nat) :
    strHasSub (MockLogGenerator.patternMessage mode name service kw n) kw = true := by
  unfold MockLogGenerator.patternMessage
  split
  · exact lookup_getD_prop (fun s => strHasSub s kw = true) _ name _
      (testMessages_contains kw n) (strHasSub_last _ kw)
  · exact lookup_getD_prop (fun s => strHasSub s kw = true) _ name _
      (prodMessages_contains service kw n) (strHasSub_last _ kw)

theorem fwdMessage_contains (name service kw : String) (n : Nat) :
    strHasSub ((List.lookup name (MockLogForwarder.patternMessages service kw n)).getD
      ("Service log: " ++ kw)) kw = true := by
  unfold MockLogForwarder.patternMessages
  exact lookup_getD_prop (fun s => strHasSub s kw = true) _ name _
    (prodMessages_contains service kw n) (strHasSub_last _ kw)

/-- Claim C1: for every pattern-derived record (`generate_pattern_log`, in
either script and either mode), the record's `message` field contains, as a
literal substring, at least one keyword from that pattern's keywords list. -/
theorem claim_C1_pattern_message_contains_keyword :
    (∀ sns nn mode name cfg, (name, cfg) ∈ MockLogGenerator.patterns →
      ∀ d : MockLogGenerator.PDraw,
      cfg.keywords.any (fun kw =>
        strHasSub (recMessage (MockLogGenerator.generate_pattern_log sns nn mode name cfg d)) kw)
        = true)
    ∧ (∀ name cfg, (name, cfg) ∈ MockLogForwarder.patterns →
      ∀ d : MockLogForwarder.FPDraw,
      cfg.keywords.any (fun kw =>
        strHasSub (recMessage (MockLogForwarder.generate_pattern_log name cfg d)) kw)
        = true) := by
  constructor
  · intro sns nn mode name cfg hmem d
    have hpos : 0 < cfg.keywords.length := catalog_keywords_length_pos hmem
    refine List.any_eq_true.mpr
      ⟨cfg.keywords.getD (d.kwIdx % cfg.keywords.length) "",
       getD_mem_of_lt _ _ _ (Nat.mod_lt _ hpos), ?_⟩
    rw [gen_recMessage]
    exact patternMessage_contains mode name _ _ d.msgNum
  · intro name cfg hmem d
    have hpos : 0 < cfg.keywords.length := catalog_keywords_length_pos hmem
    refine List.any_eq_true.mpr
      ⟨cfg.keywords.getD (d.kwIdx % cfg.keywords.length) "",
       getD_mem_of_lt _ _ _ (Nat.mod_lt _ hpos), ?_⟩
    rw [fwd_recMessage]
    exact fwdMessage_contains name _ _ d.msgNum

/-- Witness for C1 at a concrete pattern (`high_error_rate`), mode
(`continuous`) and draw. -/
theorem claim_C1_witness :
    cfgHighErrorRate.keywords.any (fun kw =>
      strHasSub (recMessage (MockLogGenerator.generate_pattern_log
        "mock-logs" "unknown-node" "continuous" "high_error_rate" cfgHighErrorRate pd0)) kw)
      = true :=
  claim_C1_pattern_message_contains_keyword.1 "mock-logs" "unknown-node" "continuous"
    "high_error_rate" cfgHighErrorRate (by decide) pd0

/-- Claim C2 counterexample: in the stdout generator's test mode, the e2e
override pins `database_errors` to level `FATAL` even though the pattern's
`log_level` condition is `ERROR`, so the claim fails as stated. -/
theorem claim_C2_counterexample :
    List.lookup "database_errors" MockLogGenerator.patterns = some cfgDatabaseErrors
    ∧ cfgDatabaseErrors.conditions.log_level = some "ERROR"
    ∧ recLevel (MockLogGenerator.generate_pattern_log "mock-logs" "unknown-node"
        "test" "database_errors" cfgDatabaseErrors pd0) = "FATAL"
    ∧ "FATAL" ≠ "ERROR" := by
  refine ⟨rfl, rfl, rfl, ?_⟩
  decide

/-- Claim C2, amended: for every catalog pattern with a `log_level` condition,
every record has that level — except that the stdout generator in test mode
emits level `FATAL` for `database_errors` (its e2e override) despite the
pattern's `ERROR` condition; the forwarder, and the generator outside that
one test-mode override, satisfy the claim. -/
theorem claim_C2_amended :
    (∀ name cfg l, (name, cfg) ∈ MockLogForwarder.patterns →
      cfg.conditions.log_level = some l → ∀ d : MockLogForwarder.FPDraw,
      recLevel (MockLogForwarder.generate_pattern_log name cfg d) = l)
    ∧ (∀ sns nn mode name cfg l, (name, cfg) ∈ MockLogGenerator.patterns →
      cfg.conditions.log_level = some l →
      ¬(mode = "test" ∧ name = "database_errors") → ∀ d : MockLogGenerator.PDraw,
      recLevel (MockLogGenerator.generate_pattern_log sns nn mode name cfg d) = l) := by
  constructor
  · intro name cfg l _ hl d
    rw [fwd_recLevel]
    unfold defaultLevel
    rw [hl]
  · intro sns nn mode name cfg l hmem hl hnot d
    rw [gen_recLevel]
    unfold MockLogGenerator.patternServiceLevel
    by_cases hm : (mode == "test") = true
    · have hmode : mode = "test" := by simpa using hm
      subst hmode
      fin_cases hmem <;>
        simp_all [MockLogGenerator.e2eOverrides, List.lookup]
    · have hm2 : (mode == "test") = false := by simpa using hm
      simp only [hm2, Bool.false_eq_true, if_false]
      rw [hl]

/-- Witness for the amended C2 at a concrete input: the forwarder's
`high_error_rate` record carries the `ERROR` level of its condition. -/
theorem claim_C2_witness :
    recLevel (MockLogForwarder.generate_pattern_log "high_error_rate"
      cfgHighErrorRate fpd0) = "ERROR" :=
  claim_C2_amended.1 "high_error_rate" cfgHighErrorRate "ERROR" (by decide) rfl fpd0

/-- Claim C3 counterexample: in the stdout generator's test mode, the e2e
override pins `high_warn_rate` to service `user-service`, which is not in
that pattern's declared services list, so the claim fails as stated. -/
theorem claim_C3_counterexample :
    List.lookup "high_warn_rate" MockLogGenerator.patterns = some cfgHighWarnRate
    ∧ recService (MockLogGenerator.generate_pattern_log "mock-logs" "unknown-node"
        "test" "high_warn_rate" cfgHighWarnRate pd0) = "user-service"
    ∧ "user-service" ∉ cfgHighWarnRate.services := by
  refine ⟨rfl, rfl, ?_⟩
  decide

/-- Claim C3, amended: every pattern record's service is drawn from that
pattern's declared services list — except that the stdout generator in test
mode pins `high_warn_rate` to `user-service`, which is outside the pattern's
list; the forwarder, and the generator outside that one test-mode override,
satisfy the claim. -/
theorem claim_C3_amended :
    (∀ name cfg, (name, cfg) ∈ MockLogForwarder.patterns →
      ∀ d : MockLogForwarder.FPDraw,
      recService (MockLogForwarder.generate_pattern_log name cfg d) ∈ cfg.services)
    ∧ (∀ sns nn mode name cfg, (name, cfg) ∈ MockLogGenerator.patterns →
      ¬(mode = "test" ∧ name = "high_warn_rate") → ∀ d : MockLogGenerator.PDraw,
      recService (MockLogGenerator.generate_pattern_log sns nn mode name cfg d) ∈ cfg.services) := by
  constructor
  · intro name cfg hmem d
    rw [fwd_recService]
    exact getD_mem_of_lt _ _ _ (Nat.mod_lt _ (catalog_services_length_pos hmem))
  · intro sns nn mode name cfg hmem hnot d
    rw [gen_recService]
    by_cases hm : (mode == "test") = true
    · have hmode : mode = "test" := by simpa using hm
      subst hmode
      rw [patternServiceLevel_test]
      fin_cases hmem <;>
        simp only [MockLogGenerator.e2eOverrides, List.lookup] <;>
        first
          | (simp
             done)
          | (refine getD_mem_of_lt _ _ _ (Nat.mod_lt _ ?_)
             decide)
          | exact absurd (And.intro rfl rfl) hnot
    · have hm2 : (mode == "test") = false := by simpa using hm
      rw [patternServiceLevel_not_test _ _ _ _ _ hm2]
      exact getD_mem_of_lt _ _ _ (Nat.mod_lt _ (catalog_services_length_pos hmem))

/-- Witness for the amended C3 at a concrete input: the forwarder's
`high_error_rate` record's service lies in the pattern's services list. -/
theorem claim_C3_witness :
    recService (MockLogForwarder.generate_pattern_log "high_error_rate"
      cfgHighErrorRate fpd0) ∈ cfgHighErrorRate.services :=
  claim_C3_amended.1 "high_error_rate" cfgHighErrorRate (by decide) fpd0

theorem catalog_threshold_pos :
    MockLogGenerator.patterns.all
      (fun p => Nat.ble 1 (p.2.conditions.threshold.getD 5)) = true := by decide

/-- Claim C4 counterexample: the forwarder's test driver always passes an
explicit count of `threshold + 2`; for `high_error_rate` (threshold 10) it
emits 12 records, not 2, so the claim fails for that script. -/
theorem claim_C4_counterexample :
    List.lookup "high_error_rate" MockLogForwarder.patterns = some cfgHighErrorRate
    ∧ (MockLogForwarder.testPatternRecords "high_error_rate" cfgHighErrorRate
        (fun _ => fpd0)).length = 12
    ∧ (12 : Nat) ≠ 2 := by
  refine ⟨rfl, ?_, by decide⟩
  simp [MockLogForwarder.testPatternRecords, MockLogForwarder.generate_pattern_burst,
    MockLogForwarder.testBurstCount, cfgHighErrorRate]

/-- Claim C4, amended: in the stdout generator's test mode a burst with no
explicit count emits exactly 2 records (for every pattern); the forwarder's
test driver instead always passes the explicit count `threshold + 2`
(threshold defaulting to 5), which is at least 3, so it never emits 2. -/
theorem claim_C4_amended :
    (∀ sns nn mode name cfg r draws, mode = "test" →
      (MockLogGenerator.generate_pattern_burst sns nn mode name cfg none r draws).length = 2)
    ∧ (∀ name cfg draws, (name, cfg) ∈ MockLogForwarder.patterns →
      (MockLogForwarder.testPatternRecords name cfg draws).length
        = cfg.conditions.threshold.getD 5 + 2
      ∧ (MockLogForwarder.testPatternRecords name cfg draws).length ≠ 2) := by
  constructor
  · intro sns nn mode name cfg r draws hmode
    subst hmode
    simp [MockLogGenerator.generate_pattern_burst, MockLogGenerator.burstCount]
  · intro name cfg draws hmem
    have hlen : (MockLogForwarder.testPatternRecords name cfg draws).length
        = cfg.conditions.threshold.getD 5 + 2 := by
      simp [MockLogForwarder.testPatternRecords, MockLogForwarder.generate_pattern_burst,
        MockLogForwarder.testBurstCount]
    refine ⟨hlen, ?_⟩
    have hble := List.all_eq_true.mp catalog_threshold_pos _ hmem
    have hpos : 1 ≤ cfg.conditions.threshold.getD 5 := Nat.le_of_ble_eq_true hble
    omega

/-- Witness for the amended C4: generator test-mode burst of
`high_error_rate` has exactly 2 records; the forwarder's test driver emits
12 (= 10 + 2) records for the same pattern. -/
theorem claim_C4_witness :
    (MockLogGenerator.generate_pattern_burst "mock-logs" "unknown-node" "test"
      "high_error_rate" cfgHighErrorRate none 0 (fun _ => pd0)).length = 2
    ∧ (MockLogForwarder.testPatternRecords "high_error_rate" cfgHighErrorRate
        (fun _ => fpd0)).length = 12
    ∧ (MockLogForwarder.testPatternRecords "high_error_rate" cfgHighErrorRate
        (fun _ => fpd0)).length ≠ 2 := by
  refine ⟨claim_C4_amended.1 _ _ _ _ _ _ _ rfl, ?_, ?_⟩
  · have h := (claim_C4_amended.2 "high_error_rate" cfgHighErrorRate
      (fun _ => fpd0) (by decide)).1
    simpa [cfgHighErrorRate] using h
  · exact (claim_C4_amended.2 "high_error_rate" cfgHighErrorRate
      (fun _ => fpd0) (by decide)).2

/-- Claim C5 counterexample: the forwarder's continuous driver uses
`threshold + randint(1, 5)`; with draw 5 it emits 15 records for
`high_error_rate` (threshold 10), above the claimed maximum `threshold + 3`. -/
theorem claim_C5_counterexample :
    List.lookup "high_error_rate" MockLogForwarder.patterns = some cfgHighErrorRate
    ∧ (MockLogForwarder.continuousBurstRecords "high_error_rate" cfgHighErrorRate 4
        (fun _ => fpd0)).length = 15
    ∧ ¬(15 ≤ cfgHighErrorRate.conditions.threshold.getD 5 + 3) := by
  refine ⟨rfl, ?_, by decide⟩
  simp [MockLogForwarder.continuousBurstRecords, MockLogForwarder.generate_pattern_burst,
    MockLogForwarder.continuousBurstCount, cfgHighErrorRate]

/-- Claim C5, amended: the stdout generator's continuous-mode auto-count burst
emits between `threshold + 1` and `threshold + 3` records (threshold
defaulting to 5); the forwarder's continuous driver instead draws
`randint(1, 5)`, so its bursts emit between `threshold + 1` and
`threshold + 5` records. -/
theorem claim_C5_amended :
    (∀ sns nn mode name cfg r draws, mode ≠ "test" →
      cfg.conditions.threshold.getD 5 + 1
        ≤ (MockLogGenerator.generate_pattern_burst sns nn mode name cfg none r draws).length
      ∧ (MockLogGenerator.generate_pattern_burst sns nn mode name cfg none r draws).length
        ≤ cfg.conditions.threshold.getD 5 + 3)
    ∧ (∀ name cfg r draws,
      cfg.conditions.threshold.getD 5 + 1
        ≤ (MockLogForwarder.continuousBurstRecords name cfg r draws).length
      ∧ (MockLogForwarder.continuousBurstRecords name cfg r draws).length
        ≤ cfg.conditions.threshold.getD 5 + 5) := by
  constructor
  · intro sns nn mode name cfg r draws hmode
    have hm2 : (mode == "test") = false := by
      simpa using hmode
    simp only [MockLogGenerator.generate_pattern_burst, MockLogGenerator.burstCount,
      List.length_map, List.length_range, hm2, Bool.false_eq_true, if_false]
    have hr : r % 3 < 3 := Nat.mod_lt r (by decide)
    omega
  · intro name cfg r draws
    simp only [MockLogForwarder.continuousBurstRecords, MockLogForwarder.generate_pattern_burst,
      MockLogForwarder.continuousBurstCount, List.length_map, List.length_range]
    have hr : r % 5 < 5 := Nat.mod_lt r (by decide)
    omega

/-- Witness for the amended C5 at mode `continuous`, pattern
`high_error_rate`, draw 0 (both scripts). -/
theorem claim_C5_witness :
    (cfgHighErrorRate.conditions.threshold.getD 5 + 1
      ≤ (MockLogGenerator.generate_pattern_burst "mock-logs" "unknown-node" "continuous"
        "high_error_rate" cfgHighErrorRate none 0 (fun _ => pd0)).length
    ∧ (MockLogGenerator.generate_pattern_burst "mock-logs" "unknown-node" "continuous"
        "high_error_rate" cfgHighErrorRate none 0 (fun _ => pd0)).length
      ≤ cfgHighErrorRate.conditions.threshold.getD 5 + 3) :=
  claim_C5_amended.1 "mock-logs" "unknown-node" "continuous" "high_error_rate"
    cfgHighErrorRate 0 (fun _ => pd0) (by decide)

/-- Claim C6 counterexample: records built by the broker forwarder carry no
`raw` field at all (neither pattern-derived nor normal ones), so the claim
fails for that script. -/
theorem claim_C6_counterexample :
    List.lookup "high_error_rate" MockLogForwarder.patterns = some cfgHighErrorRate
    ∧ rawOf (MockLogForwarder.generate_pattern_log "high_error_rate"
        cfgHighErrorRate fpd0) = none
    ∧ rawOf (MockLogForwarder.generate_normal_log fnd0) = none :=
  ⟨rfl, rfl, rfl⟩

/-- Claim C6, amended: every record emitted by the stdout generator (pattern
or normal) carries a `raw` field that decodes to an object with exactly the
keys timestamp, level, message, service, each equal to the corresponding
top-level field; the broker forwarder's records carry no `raw` field. -/
theorem claim_C6_amended :
    (∀ sns nn mode name cfg (d : MockLogGenerator.PDraw),
      rawOf (MockLogGenerator.generate_pattern_log sns nn mode name cfg d) =
      some (JValue.obj
        [("timestamp", JValue.str (recTimestamp
           (MockLogGenerator.generate_pattern_log sns nn mode name cfg d))),
         ("level", JValue.str (recLevel
           (MockLogGenerator.generate_pattern_log sns nn mode name cfg d))),
         ("message", JValue.str (recMessage
           (MockLogGenerator.generate_pattern_log sns nn mode name cfg d))),
         ("service", JValue.str (recService
           (MockLogGenerator.generate_pattern_log sns nn mode name cfg d)))]))
    ∧ (∀ sns nn (d : MockLogGenerator.NDraw),
      rawOf (MockLogGenerator.generate_normal_log sns nn d) =
      some (JValue.obj
        [("timestamp", JValue.str (recTimestamp (MockLogGenerator.generate_normal_log sns nn d))),
         ("level", JValue.str (recLevel (MockLogGenerator.generate_normal_log sns nn d))),
         ("message", JValue.str (recMessage (MockLogGenerator.generate_normal_log sns nn d))),
         ("service", JValue.str (recService (MockLogGenerator.generate_normal_log sns nn d)))]))
    ∧ (∀ name cfg (d : MockLogForwarder.FPDraw),
      rawOf (MockLogForwarder.generate_pattern_log name cfg d) = none)
    ∧ (∀ d : MockLogForwarder.FNDraw,
      rawOf (MockLogForwarder.generate_normal_log d) = none) :=
  ⟨fun _ _ _ _ _ _ => rfl, fun _ _ _ => rfl, fun _ _ _ => rfl, fun _ => rfl⟩

/-- Claim C7: `send_log` keys the Kafka message with `service-level` from the
original record, and the envelope wraps the original record (JSON-encoded,
modelled structurally) in its `message` field plus the pipeline fields
`stream`, `tag`, `source_type` and the lower-cased level. -/
theorem claim_C7_send_log_envelope :
    ∀ (log : Rec) (now sv lv : String),
    List.lookup "service" log = some (JValue.str sv) →
    List.lookup "level" log = some (JValue.str lv) →
    (MockLogForwarder.send_log now log).1 = sv ++ "-" ++ lv
    ∧ List.lookup "message" (MockLogForwarder.send_log now log).2 = some (JValue.obj log)
    ∧ List.lookup "stream" (MockLogForwarder.send_log now log).2 = some (JValue.str "stdout")
    ∧ List.lookup "tag" (MockLogForwarder.send_log now log).2
        = some (JValue.str "kubernetes.var.log.containers")
    ∧ List.lookup "source_type" (MockLogForwarder.send_log now log).2
        = some (JValue.str "kubernetes_logs")
    ∧ List.lookup "level" (MockLogForwarder.send_log now log).2
        = some (JValue.str (strLower lv)) := by
  intro log now sv lv hs hl
  have hsv : recField log "service" = sv := by
    unfold recField
    rw [hs]
  have hlv : recField log "level" = lv := by
    unfold recField
    rw [hl]
  refine ⟨?_, rfl, rfl, rfl, rfl, ?_⟩
  · show recField log "service" ++ "-" ++ recField log "level" = sv ++ "-" ++ lv
    rw [hsv, hlv]
  · show some (JValue.str (strLower (recField log "level")))
      = some (JValue.str (strLower lv))
    rw [hlv]

/-- Witness for C7 on a concrete published record: the forwarder's
`high_error_rate` pattern record (service `payment-service`, level `ERROR`). -/
theorem claim_C7_witness :
    (MockLogForwarder.send_log "now" (MockLogForwarder.generate_pattern_log
      "high_error_rate" cfgHighErrorRate fpd0)).1 = "payment-service" ++ "-" ++ "ERROR"
    ∧ List.lookup "message" (MockLogForwarder.send_log "now"
        (MockLogForwarder.generate_pattern_log "high_error_rate" cfgHighErrorRate fpd0)).2
      = some (JValue.obj (MockLogForwarder.generate_pattern_log
        "high_error_rate" cfgHighErrorRate fpd0))
    ∧ List.lookup "stream" (MockLogForwarder.send_log "now"
        (MockLogForwarder.generate_pattern_log "high_error_rate" cfgHighErrorRate fpd0)).2
      = some (JValue.str "stdout")
    ∧ List.lookup "tag" (MockLogForwarder.send_log "now"
        (MockLogForwarder.generate_pattern_log "high_error_rate" cfgHighErrorRate fpd0)).2
      = some (JValue.str "kubernetes.var.log.containers")
    ∧ List.lookup "source_type" (MockLogForwarder.send_log "now"
        (MockLogForwarder.generate_pattern_log "high_error_rate" cfgHighErrorRate fpd0)).2
      = some (JValue.str "kubernetes_logs")
    ∧ List.lookup "level" (MockLogForwarder.send_log "now"
        (MockLogForwarder.generate_pattern_log "high_error_rate" cfgHighErrorRate fpd0)).2
      = some (JValue.str (strLower "ERROR")) :=
  claim_C7_send_log_envelope
    (MockLogForwarder.generate_pattern_log "high_error_rate" cfgHighErrorRate fpd0)
    "now" "payment-service" "ERROR" rfl rfl

/-- Claim C8 counterexample: the forwarder's continuous loop body has no
try/except, so a raised exception crashes the loop instead of being caught
and followed by a 10-second back-off. -/
theorem claim_C8_counterexample :
    MockLogForwarder.continuousStep true (CycleOutcome.raised "boom")
      = LoopStep.crashed "boom"
    ∧ MockLogForwarder.continuousStep true (CycleOutcome.raised "boom")
      ≠ LoopStep.resumed 10 := by
  refine ⟨rfl, ?_⟩
  decide

/-- Claim C8, amended: in the stdout generator's continuous loop any exception
is caught and the loop resumes after a 10-second back-off, and while the
running flag holds the loop neither stops nor crashes; the forwarder's
continuous loop, whose body has no handler, lets an exception terminate it. -/
theorem claim_C8_amended :
    (∀ e, MockLogGenerator.continuousStep true (CycleOutcome.raised e)
      = LoopStep.resumed 10)
    ∧ (∀ c, MockLogGenerator.continuousStep true c ≠ LoopStep.stopped
        ∧ ∀ e, MockLogGenerator.continuousStep true c ≠ LoopStep.crashed e)
    ∧ (∀ c, MockLogGenerator.continuousStep false c = LoopStep.stopped)
    ∧ (∀ e, MockLogForwarder.continuousStep true (CycleOutcome.raised e)
      = LoopStep.crashed e) := by
  refine ⟨fun e => rfl, fun c => ?_, fun c => rfl, fun e => rfl⟩
  cases c with
  | ok =>
    exact ⟨by simp [MockLogGenerator.continuousStep],
      fun e => by simp [MockLogGenerator.continuousStep]⟩
  | raised e0 =>
    exact ⟨by simp [MockLogGenerator.continuousStep],
      fun e => by simp [MockLogGenerator.continuousStep]⟩

/-- Claim C9: an unknown mode makes the generator's `start` return `False`
and the process exit with code 1; an unreachable broker makes the forwarder's
`start` return `False` and the process exit with code 1. -/
theorem claim_C9_exit_codes :
    (∀ mode body, mode ≠ "test" → mode ≠ "continuous" →
      MockLogGenerator.start mode body = false
      ∧ MockLogGenerator.mainExitCode mode body = 1)
    ∧ (∀ mode body,
      MockLogForwarder.start false mode body = Except.ok false
      ∧ MockLogForwarder.mainExitCode false mode body = 1) := by
  constructor
  · intro mode body h1 h2
    have hb1 : (mode == "test") = false := by simpa using h1
    have hb2 : (mode == "continuous") = false := by simpa using h2
    have hs : MockLogGenerator.start mode body = false := by
      unfold MockLogGenerator.start
      simp [hb1, hb2]
    refine ⟨hs, ?_⟩
    unfold MockLogGenerator.mainExitCode
    simp [hs]
  · intro mode body
    exact ⟨rfl, rfl⟩

/-- Witness for C9 at the concrete unknown mode `"batch"`. -/
theorem claim_C9_witness :
    MockLogGenerator.start "batch" BodyResult.completed = false
    ∧ MockLogGenerator.mainExitCode "batch" BodyResult.completed = 1 :=
  claim_C9_exit_codes.1 "batch" BodyResult.completed (by decide) (by decide)

theorem mem_foldr_keywords {l : List (String × Pattern)} {name : String}
    {cfg : Pattern} {kw : String}
    (hmem : (name, cfg) ∈ l) (hkw : kw ∈ cfg.keywords) :
    kw ∈ l.foldr (fun p acc => p.2.keywords ++ acc) [] := by
  induction l with
  | nil => simp at hmem
  | cons p t ih =>
    rw [List.foldr_cons, List.mem_append]
    rcases List.mem_cons.mp hmem with h | h
    · left
      subst h
      exact hkw
    · right
      exact ih h

theorem mem_allCatalogKeywords {name : String} {cfg : Pattern} {kw : String}
    (hmem : (name, cfg) ∈ MockLogGenerator.patterns) (hkw : kw ∈ cfg.keywords) :
    kw ∈ allCatalogKeywords :=
  mem_foldr_keywords hmem hkw

theorem allKW_facts :
    allCatalogKeywords.all
      (fun k => !k.data.isEmpty && k.data.all (fun c => !c.isDigit)) = true := by decide

theorem kw_data_props {kw : String} (h : kw ∈ allCatalogKeywords) :
    kw.data ≠ [] ∧ ∀ c ∈ kw.data, c.isDigit = false := by
  have hb := List.all_eq_true.mp allKW_facts kw h
  simp only [Bool.and_eq_true, Bool.not_eq_true'] at hb
  constructor
  · intro hnil
    rw [hnil] at hb
    simp [List.isEmpty] at hb
  · intro c hc
    have hc2 := List.all_eq_true.mp hb.2 c hc
    simpa using hc2

/-- No keyword of any catalog pattern's keywords list occurs in any normal
message, for any service choice and any numeric draw. -/
theorem normalMessage_safe :
    ∀ kw ∈ allCatalogKeywords, ∀ service ∈ MockLogGenerator.services,
    ∀ (i n1 n2 n3 n4 n5 : Nat),
    strHasSub ((MockLogGenerator.normalMessages service n1 n2 n3 n4 n5).getD (i % 10) "") kw
      = false := by
  intro kw hkw service hsvc i n1 n2 n3 n4 n5
  obtain ⟨hne, hnd⟩ := kw_data_props hkw
  have h10 : i % 10 < 10 := Nat.mod_lt _ (by decide)
  set j := i % 10 with hj
  interval_cases j
  · show strHasSub ("Request processed successfully for user "
      ++ natStr (1000 + n1 % 9000)) kw = false
    exact strHasSub_end_digits _ _ _ hne hnd (safe_of_all (by decide) hkw)
  · show strHasSub ("Service " ++ service ++ " started successfully") kw = false
    fin_cases hsvc <;> exact safe_of_all (by decide) hkw
  · show strHasSub ("Database query completed in "
      ++ natStr (10 + n2 % 491) ++ "ms") kw = false
    exact strHasSub_mid_digits _ _ _ _ hne hnd
      (safe_of_all (by decide) hkw) (safe_of_all (by decide) hkw)
  · show strHasSub ("Cache hit for key user:" ++ natStr (1000 + n3 % 9000)) kw = false
    exact strHasSub_end_digits _ _ _ hne hnd (safe_of_all (by decide) hkw)
  · show strHasSub ("Health check passed for " ++ service) kw = false
    fin_cases hsvc <;> exact safe_of_all (by decide) hkw
  · show strHasSub ("Processing batch job with "
      ++ natStr (10 + n4 % 91) ++ " items") kw = false
    exact strHasSub_mid_digits _ _ _ _ hne hnd
      (safe_of_all (by decide) hkw) (safe_of_all (by decide) hkw)
  · show strHasSub ("User session created for user " ++ natStr (1000 + n5 % 9000)) kw = false
    exact strHasSub_end_digits _ _ _ hne hnd (safe_of_all (by decide) hkw)
  · show strHasSub "Configuration loaded successfully" kw = false
    exact safe_of_all (by decide) hkw
  · show strHasSub "Metrics published to monitoring system" kw = false
    exact safe_of_all (by decide) hkw
  · show strHasSub "Background task completed successfully" kw = false
    exact safe_of_all (by decide) hkw

/-- Claim C10 counterexample: the normal-log template
`Health check passed for \x7bservice\x7d` with service `audit-service` yields a
message containing `audit` — the condition keyword of the catalog pattern
`audit_issues` (whose service condition is `audit-service`) — so a normal
record can satisfy a keyword-based alert condition and the claim fails as
stated for the catalog's condition keywords. -/
theorem claim_C10_counterexample :
    recMessage (MockLogGenerator.generate_normal_log "mock-logs" "unknown-node" nd0)
      = "Health check passed for audit-service"
    ∧ strHasSub "Health check passed for audit-service" "audit" = true
    ∧ List.lookup "audit_issues" MockLogGenerator.patterns = some cfgAuditIssues
    ∧ cfgAuditIssues.conditions.service = some "audit-service"
    ∧ cfgAuditIssues.conditions.keywords = some ["audit"]
    ∧ recService (MockLogGenerator.generate_normal_log "mock-logs" "unknown-node" nd0)
      = "audit-service" := by
  refine ⟨rfl, ?_, rfl, rfl, rfl, rfl⟩
  decide

/-- Claim C10, amended: no normal message of either script contains any
keyword from any catalog pattern's `keywords` list (the pools the message
templates draw from), under any random draw; however the claim fails for the
catalog's condition keywords, since `audit` (the `conditions.keywords` entry
of `audit_issues`) occurs in normal messages that embed the service name
`audit-service`. -/
theorem claim_C10_amended :
    (∀ sns nn name cfg, (name, cfg) ∈ MockLogGenerator.patterns →
      ∀ kw ∈ cfg.keywords, ∀ d : MockLogGenerator.NDraw,
      strHasSub (recMessage (MockLogGenerator.generate_normal_log sns nn d)) kw = false)
    ∧ (∀ name cfg, (name, cfg) ∈ MockLogForwarder.patterns →
      ∀ kw ∈ cfg.keywords, ∀ d : MockLogForwarder.FNDraw,
      strHasSub (recMessage (MockLogForwarder.generate_normal_log d)) kw = false) := by
  constructor
  · intro sns nn name cfg hmem kw hkw d
    rw [gen_normal_recMessage]
    exact normalMessage_safe kw (mem_allCatalogKeywords hmem hkw) _
      (getD_mem_of_lt _ _ _ (Nat.mod_lt _ (by decide))) d.msgIdx d.n1 d.n2 d.n3 d.n4 d.n5
  · intro name cfg hmem kw hkw d
    rw [fwd_normal_recMessage]
    exact normalMessage_safe kw (mem_allCatalogKeywords hmem hkw) _
      (getD_mem_of_lt _ _ _ (Nat.mod_lt _ (by decide))) d.msgIdx d.n1 d.n2 d.n3 d.n4 d.n5

/-- Witness for the amended C10: the keyword `error` of `high_error_rate`
does not occur in a concrete normal message of either script. -/
theorem claim_C10_witness :
    strHasSub (recMessage (MockLogGenerator.generate_normal_log
      "mock-logs" "unknown-node" nd1)) "error" = false
    ∧ strHasSub (recMessage (MockLogForwarder.generate_normal_log fnd0)) "error" = false :=
  ⟨claim_C10_amended.1 "mock-logs" "unknown-node" "high_error_rate" cfgHighErrorRate
    (by decide) "error" (by decide) nd1,
   claim_C10_amended.2 "high_error_rate" cfgHighErrorRate
    (by decide) "error" (by decide) fnd0⟩
